import Mathlib

/-!
Verification development for the core of `pandulaDW/compiler-in-rust`, a
bytecode compiler and stack virtual machine for a small scripting
language.  The Rust sources are shallowly embedded: machine integers
become `Nat`/`Int` with explicit wrapping where it matters, `Vec<u8>`
instruction streams become `List Nat`, fallible code returns an explicit
result type, and Rust panics are modelled as a distinct outcome
(`Res.panicked` / `Option.none`) so that "returns an error" and
"crashes" can be told apart.

Layout mirrors the repository:
* instruction encoding (`src/code/mod.rs`, `src/code/helpers.rs`),
* the object model (`src/object/mod.rs`, `src/object/objects.rs`,
  `src/object/builtins.rs`),
* the symbol table (`src/compiler/symbol_table.rs`),
* the compiler (`src/compiler/mod.rs`, `src/compiler/compile.rs`),
* the virtual machine (`src/vm/mod.rs`, `src/vm/frame.rs`,
  `src/vm/run.rs`).
-/

namespace Monkey

/-! ## Instruction encoding (src/code/mod.rs)

Opcodes are single bytes; instructions are flat byte sequences.  The
numeric opcode ids below are the constants of `src/code/mod.rs`. -/

def OP_CONSTANT : Nat := 1
def OP_ADD : Nat := 2
def OP_POP : Nat := 3
def OP_SUB : Nat := 4
def OP_MUL : Nat := 5
def OP_DIV : Nat := 6
def OP_TRUE : Nat := 7
def OP_FALSE : Nat := 8
def OP_EQUAL : Nat := 9
def OP_NOT_EQUAL : Nat := 10
def OP_GREATER_THAN : Nat := 11
def OP_MINUS : Nat := 12
def OP_BANG : Nat := 13
def OP_JUMP_NOT_TRUTHY : Nat := 14
def OP_JUMP : Nat := 15
def OP_NULL : Nat := 16
def OP_GET_GLOBAL : Nat := 17
def OP_SET_GLOBAL : Nat := 18
def OP_ARRAY : Nat := 19
def OP_HASH : Nat := 20
def OP_INDEX : Nat := 21
def OP_CALL : Nat := 22
def OP_RETURN_VALUE : Nat := 23
def OP_RETURN : Nat := 24
def OP_GET_LOCAL : Nat := 25
def OP_SET_LOCAL : Nat := 26
def OP_ASSIGN_GLOBAL : Nat := 27

/-- Modelled from the spec: the opcode id of CLOSURE.  `src/vm/run.rs`
dispatches on an `OP_CLOSURE` constant that is not declared in
`src/code/mod.rs`; the spec's opcode table lists CLOSURE (operands:
const-index (2), num-free (1)) and says numeric ids are an
implementation detail packed into one byte.  We assign the next unused
id. -/
def OP_CLOSURE : Nat := 28

/-- Modelled from the spec: the opcode id of GET_BUILTIN, dispatched by
`src/vm/run.rs` but not declared in `src/code/mod.rs`; the spec's opcode
table lists GET_BUILTIN with a 1-byte slot-index operand.  We assign the
next unused id after CLOSURE. -/
def OP_GET_BUILTIN : Nat := 29

/-- An opcode definition: a readable name and the byte widths of the
operands (src/code/mod.rs, `Definition`). -/
structure Definition where
  name : String
  operand_widths : List Nat

/-- `lookup` from src/code/mod.rs: the opcode table.  Note that
`OP_CALL` is declared with NO operands there, and that the table has no
entry for the CLOSURE / GET_BUILTIN opcodes the VM dispatches. -/
def lookup (op : Nat) : Option Definition :=
  if op = OP_CONSTANT then some ⟨"OpConstant", [2]⟩
  else if op = OP_ADD then some ⟨"OpAdd", []⟩
  else if op = OP_POP then some ⟨"OpPop", []⟩
  else if op = OP_SUB then some ⟨"OpSub", []⟩
  else if op = OP_MUL then some ⟨"OpMul", []⟩
  else if op = OP_DIV then some ⟨"OpDiv", []⟩
  else if op = OP_TRUE then some ⟨"OpTrue", []⟩
  else if op = OP_FALSE then some ⟨"OpFalse", []⟩
  else if op = OP_EQUAL then some ⟨"OpEqual", []⟩
  else if op = OP_NOT_EQUAL then some ⟨"OpNotEqual", []⟩
  else if op = OP_GREATER_THAN then some ⟨"OpGreaterThan", []⟩
  else if op = OP_MINUS then some ⟨"OpMinus", []⟩
  else if op = OP_BANG then some ⟨"OpBang", []⟩
  else if op = OP_JUMP_NOT_TRUTHY then some ⟨"OpJumpNotTruthy", [2]⟩
  else if op = OP_JUMP then some ⟨"OpJump", [2]⟩
  else if op = OP_NULL then some ⟨"OpNull", []⟩
  else if op = OP_GET_GLOBAL then some ⟨"OpGetGlobal", [2]⟩
  else if op = OP_SET_GLOBAL then some ⟨"OpSetGlobal", [2]⟩
  else if op = OP_ARRAY then some ⟨"OpArray", [2]⟩
  else if op = OP_HASH then some ⟨"OpHash", [2]⟩
  else if op = OP_INDEX then some ⟨"OpIndex", []⟩
  else if op = OP_CALL then some ⟨"OpCall", []⟩
  else if op = OP_RETURN_VALUE then some ⟨"OpReturnValue", []⟩
  else if op = OP_RETURN then some ⟨"OpReturn", []⟩
  else if op = OP_GET_LOCAL then some ⟨"OpGetLocal", [1]⟩
  else if op = OP_SET_LOCAL then some ⟨"OpSetLocal", [1]⟩
  else if op = OP_ASSIGN_GLOBAL then some ⟨"OpAssignGlobal", [2]⟩
  else none

/-- Modelled from the spec: `read_u8`, called by `src/code/mod.rs` and
`src/vm/run.rs` but absent from `src/code/helpers.rs` (which only has
`read_u16`); the spec says 1-byte operands are read as 8-bit numbers.
Reading past the end of the buffer is a Rust panic, modelled as
`none`. -/
def readU8 (buf : List Nat) : Option Nat := buf.head?

/-- `read_u16` from src/code/helpers.rs: a big-endian 16-bit read.
`byteorder` panics when the buffer is shorter than two bytes (`none`
here). -/
def readU16 (buf : List Nat) : Option Nat :=
  match buf with
  | a :: b :: _ => some (256 * a + b)
  | _ => none

/-- One operand write in `make`'s loop (src/code/mod.rs lines 112-119):
big-endian at the declared width; `u8::try_from(*o).unwrap()` /
`u16::try_from(*o).unwrap()` and out-of-range buffer indexing are Rust
panics, modelled as `none`.  An unrecognized width writes nothing. -/
def writeOperand (buf : List Nat) (offset width o : Nat) : Option (List Nat) :=
  match width with
  | 1 =>
    if o < 256 then
      if offset < buf.length then some (buf.set offset o) else none
    else none
  | 2 =>
    if o < 65536 then
      if offset + 2 ≤ buf.length then
        some ((buf.set offset (o / 256)).set (offset + 1) (o % 256))
      else none
    else none
  | _ => some buf

/-- The operand-encoding loop of `make`: for each operand, fetch the
declared width by position (`def.operand_widths[i]` panics — `none` —
when there are more operands than declared widths) and write it. -/
def makeGo (widths : List Nat) : List Nat → Nat → Nat → List Nat → Option (List Nat)
  | [], _, _, buf => some buf
  | o :: rest, i, offset, buf =>
    match widths.get? i with
    | none => none
    | some width =>
      match writeOperand buf offset width o with
      | none => none
      | some buf₂ => makeGo widths rest (i + 1) (offset + width) buf₂

/-- `make` from src/code/mod.rs: lay out the opcode byte followed by the
operands.  An unknown opcode yields the empty byte sequence (`some []`);
a panic inside the encoding loop is `none`. -/
def make (op : Nat) (operands : List Nat) : Option (List Nat) :=
  match lookup op with
  | none => some []
  | some d =>
    let instruction_len := 1 + d.operand_widths.foldl (· + ·) 0
    makeGo d.operand_widths operands 0 1 ((List.replicate instruction_len 0).set 0 op)

/-- The decoding loop of `read_operands` (src/code/mod.rs lines
218-224): walk the declared widths, reading a `u8` or `u16` at the
running offset into the pre-sized operands vector. -/
def readOperandsGo (ins : List Nat) : List Nat → Nat → Nat → List Nat → Option (List Nat × Nat)
  | [], _, offset, operands => some (operands, offset)
  | w :: ws, i, offset, operands =>
    match w with
    | 1 =>
      match readU8 (ins.drop offset) with
      | none => none
      | some v => readOperandsGo ins ws (i + 1) (offset + 1) (operands.set i v)
    | 2 =>
      match readU16 (ins.drop offset) with
      | none => none
      | some v => readOperandsGo ins ws (i + 1) (offset + 2) (operands.set i v)
    | _ => readOperandsGo ins ws (i + 1) (offset + w) operands

/-- `read_operands` from src/code/mod.rs: decode the operands of one
instruction body (the opcode byte already removed), returning them with
the number of bytes consumed. -/
def read_operands (d : Definition) (ins : List Nat) : Option (List Nat × Nat) :=
  readOperandsGo ins d.operand_widths 0 0 (List.replicate d.operand_widths.length 0)

/-! ## Object model (src/object/mod.rs, src/object/objects.rs)

Values are a tagged sum.  The `Rc<RefCell<...>>` sharing of arrays and
hash maps is outside a value-semantics embedding: arrays and maps are
carried by value here (no claim exercises aliasing), and a hash map is
its list of entries in insertion order (Rust's `HashMap` iteration
order is arbitrary, so no claim may depend on it).  The dead `_Error` /
`_ReturnValue` legacy variants of `AllObjects` are omitted. -/

/-- `CompiledFunctionObj` from src/object/objects.rs: the function's
instruction bytes and its `num_args` arity. -/
structure CompiledFunctionObj where
  instructions : List Nat
  num_args : Nat

/-- `BuiltinFunctionObj` from src/object/objects.rs, with the native
function pointer replaced by the builtin's name (the VM dispatches on it
via `applyBuiltin` below). -/
structure BuiltinFunctionObj where
  fn_name : String
  num_params : Nat

/-- The variadic-arity sentinel `usize::MAX` used by the `print`
builtin. -/
def USIZE_MAX : Nat := 2 ^ 64 - 1

/-- `AllObjects` from src/object/mod.rs (plus the `Closure` variant that
src/vm/run.rs constructs and matches on; a closure is its compiled
function together with the captured free values, inlined because it
holds values). -/
inductive Value where
  | integer (value : Int)
  | stringObj (value : String)
  | boolean (value : Bool)
  | null
  | compiledFunction (func : CompiledFunctionObj)
  | builtinFunction (func : BuiltinFunctionObj)
  | arrayObj (elements : List Value)
  | hashMapObj (pairs : List (Value × Value))
  | closure (func : CompiledFunctionObj) (free : List Value)

/-- `ObjectType` from src/object/mod.rs.  `closureTy` is modelled (the
snapshot's `object_type` predates the Closure variant and has no arm for
it). -/
inductive ObjectType where
  | integer | string | boolean | null | error | ret
  | compiledFunction | array | hashMap | closureTy
deriving DecidableEq

/-- The `Display` strings of `ObjectType` (src/object/mod.rs lines
24-40). -/
def displayObjectType : ObjectType → String
  | .integer => "INTEGER"
  | .string => "STRING"
  | .boolean => "BOOLEAN"
  | .null => "NULL"
  | .error => "ERROR"
  | .ret => "RETURN"
  | .compiledFunction => "COMPILED_FUNCTION"
  | .array => "ARRAY"
  | .hashMap => "HASH_MAP"
  | .closureTy => "CLOSURE"

/-- `object_type` from src/object/mod.rs.  Note the snapshot maps
builtin functions to `ObjectType::CompiledFunction` (line 86), a quirk
we keep. -/
def Value.object_type : Value → ObjectType
  | .integer _ => .integer
  | .stringObj _ => .string
  | .boolean _ => .boolean
  | .null => .null
  | .compiledFunction _ => .compiledFunction
  | .builtinFunction _ => .compiledFunction
  | .arrayObj _ => .array
  | .hashMapObj _ => .hashMap
  | .closure _ _ => .closureTy

def Value.is_integer (v : Value) : Bool := v.object_type = ObjectType.integer

def Value.is_boolean (v : Value) : Bool := v.object_type = ObjectType.boolean

def Value.is_string (v : Value) : Bool := v.object_type = ObjectType.string

mutual

/-- `inspect` from src/object (the `Object` trait): the printable text
form of a value.  String inspect rewrites the two-character escapes
`\n` and `\t` to control characters; a compiled function prints as
`fn()\x7b\x7d`; a closure as `Closure[...]`. -/
def inspect : Value → String
  | .integer v => toString v
  | .stringObj v => (v.replace "\\n" "\n").replace "\\t" "\t"
  | .boolean v => toString v
  | .null => "null"
  | .compiledFunction _ => "fn()\x7b\x7d"
  | .builtinFunction f => f.fn_name
  | .arrayObj elements => "[" ++ String.intercalate ", " (inspectList elements) ++ "]"
  | .hashMapObj pairs => "\x7b " ++ String.intercalate ", " (inspectPairs pairs) ++ " \x7d"
  | .closure _ _ => "Closure[" ++ "fn()\x7b\x7d" ++ "]"

def inspectList : List Value → List String
  | [] => []
  | v :: rest => inspect v :: inspectList rest

def inspectPairs : List (Value × Value) → List String
  | [] => []
  | (k, v) :: rest => (inspect k ++ ":" ++ inspect v) :: inspectPairs rest

end

mutual

/-- `PartialEq` on `AllObjects`: derived structural equality, except
that compiled functions compare by their instruction bytes, builtins by
name, and hash maps by their `inspect` text (src/object/objects.rs). -/
def valueEq : Value → Value → Bool
  | .integer a, .integer b => a = b
  | .stringObj a, .stringObj b => a = b
  | .boolean a, .boolean b => a = b
  | .null, .null => true
  | .compiledFunction a, .compiledFunction b => a.instructions = b.instructions
  | .builtinFunction a, .builtinFunction b => a.fn_name = b.fn_name
  | .arrayObj a, .arrayObj b => valueListEq a b
  | .hashMapObj a, .hashMapObj b => inspect (.hashMapObj a) = inspect (.hashMapObj b)
  | .closure a af, .closure b bf => a.instructions = b.instructions && valueListEq af bf
  | _, _ => false

def valueListEq : List Value → List Value → Bool
  | [], [] => true
  | a :: as_, b :: bs => valueEq a b && valueListEq as_ bs
  | _, _ => false

end

/-! ## Builtins (src/object/builtins.rs)

The native function pointers are replaced by name dispatch
(`applyBuiltin`).  `print` writes to stdout and `sleep` blocks the
thread; both are outside the embedding and simply return `Null` as the
source does.  `push` / `insert` / `delete` mutate `Rc`-shared
containers; their return values are modelled faithfully, the aliased
mutation itself is not observable under value semantics (no claim
exercises it). -/

/-- A runtime outcome: `ok`, a returned error (`anyhow::Result::Err`),
a Rust panic (process abort), or fuel exhaustion of the interpreter
loop. -/
inductive Res (α : Type) where
  | ok (a : α)
  | err (msg : String)
  | panicked (msg : String)
  | fuel

instance : Monad Res where
  pure := .ok
  bind m f :=
    match m with
    | .ok a => f a
    | .err msg => .err msg
    | .panicked msg => .panicked msg
    | .fuel => .fuel

/-- `BUILTIN_FUNCTIONS` from src/object/builtins.rs: the index/name
table installed into every symbol table. -/
def BUILTIN_FUNCTIONS : List (Nat × String) :=
  [(1, "len"), (2, "print"), (3, "push"), (4, "pop"),
   (5, "is_null"), (6, "insert"), (7, "delete"), (8, "sleep")]

/-- `get_builtin_function` from src/object/builtins.rs: the builtin
value (name and declared parameter count) for an index. -/
def get_builtin_function (index : Nat) : Option Value :=
  if index = 1 then some (.builtinFunction ⟨"len", 1⟩)
  else if index = 2 then some (.builtinFunction ⟨"print", USIZE_MAX⟩)
  else if index = 3 then some (.builtinFunction ⟨"push", 2⟩)
  else if index = 4 then some (.builtinFunction ⟨"pop", 1⟩)
  else if index = 5 then some (.builtinFunction ⟨"is_null", 1⟩)
  else if index = 6 then some (.builtinFunction ⟨"insert", 3⟩)
  else if index = 7 then some (.builtinFunction ⟨"delete", 2⟩)
  else if index = 8 then some (.builtinFunction ⟨"sleep", 1⟩)
  else none

def errArgumentNotSupported (fn_name : String) (t : ObjectType) : String :=
  "argument to `" ++ fn_name ++ "` not supported, got " ++ displayObjectType t

/-- Assoc lookup by the object model's equality, as Rust's
`HashMap::get` does for hash values. -/
def assocFind (pairs : List (Value × Value)) (key : Value) : Option Value :=
  match pairs with
  | [] => none
  | (k, v) :: rest => if valueEq k key then some v else assocFind rest key

/-- Assoc insert by the object model's equality: replace an existing
entry (returning the old value) or append. -/
def assocInsert (pairs : List (Value × Value)) (key v : Value) :
    List (Value × Value) × Option Value :=
  match pairs with
  | [] => ([(key, v)], none)
  | (k, old) :: rest =>
    if valueEq k key then ((k, v) :: rest, some old)
    else
      let (rest₂, o) := assocInsert rest key v
      ((k, old) :: rest₂, o)

/-- Assoc removal by the object model's equality, returning the removed
value when present. -/
def assocRemove (pairs : List (Value × Value)) (key : Value) :
    List (Value × Value) × Option Value :=
  match pairs with
  | [] => ([], none)
  | (k, old) :: rest =>
    if valueEq k key then (rest, some old)
    else
      let (rest₂, o) := assocRemove rest key
      ((k, old) :: rest₂, o)

/-- The builtin implementations of src/object/builtins.rs, dispatched by
name.  `args.remove(0)` on an empty vector is a Rust panic. -/
def applyBuiltin (name : String) (args : List Value) : Res Value :=
  if name = "len" then
    match args with
    | [] => .panicked "remove index out of bounds"
    | v :: _ =>
      match v with
      | .stringObj s => .ok (.integer (Int.ofNat s.utf8ByteSize))
      | .arrayObj elements => .ok (.integer (Int.ofNat elements.length))
      | .hashMapObj pairs => .ok (.integer (Int.ofNat pairs.length))
      | v => .err (errArgumentNotSupported "len" v.object_type)
  else if name = "print" then .ok .null
  else if name = "push" then
    match args with
    | [] => .panicked "remove index out of bounds"
    | v :: rest =>
      match v with
      | .arrayObj _ =>
        match rest with
        | [] => .panicked "remove index out of bounds"
        | _ :: _ => .ok .null
      | v => .err (errArgumentNotSupported "push" v.object_type)
  else if name = "pop" then
    match args with
    | [] => .panicked "remove index out of bounds"
    | v :: _ =>
      match v with
      | .arrayObj elements =>
        match elements.getLast? with
        | some popped => .ok popped
        | none => .ok .null
      | v => .err (errArgumentNotSupported "pop" v.object_type)
  else if name = "is_null" then
    match args with
    | [] => .panicked "remove index out of bounds"
    | .null :: _ => .ok (.boolean true)
    | _ :: _ => .ok (.boolean false)
  else if name = "insert" then
    match args with
    | map_arg :: key :: value :: _ =>
      match map_arg with
      | .hashMapObj pairs =>
        match (assocInsert pairs key value).2 with
        | some old => .ok old
        | none => .ok .null
      | v => .err (errArgumentNotSupported "insert" v.object_type)
    | _ => .panicked "remove index out of bounds"
  else if name = "delete" then
    match args with
    | m :: key :: _ =>
      match m with
      | .hashMapObj pairs =>
        match (assocRemove pairs key).2 with
        | some old => .ok old
        | none => .ok .null
      | v => .err (errArgumentNotSupported "delete" v.object_type)
    | _ => .panicked "remove index out of bounds"
  else if name = "sleep" then
    match args with
    | [] => .panicked "remove index out of bounds"
    | v :: _ =>
      match v with
      | .integer n =>
        if n < 0 then .err "sleep only takes a positive integer value" else .ok .null
      | v => .err (errArgumentNotSupported "sleep" v.object_type)
  else .panicked "unknown builtin function pointer"

/-! ## Symbol table (src/compiler/symbol_table.rs)

The Rust table is a chain of `Rc<SymbolTable>` with `RefCell` interior
mutability; the embedding threads the updated chain explicitly
(`resolve` returns the possibly-mutated table together with its
result). -/

/-- The `SymbolScope` string constants, as an enum. -/
inductive Scope where
  | GLOBAL | LOCAL | BUILTIN | FREE | FUNCTION
deriving DecidableEq

structure Symbol where
  name : String
  scope : Scope
  index : Nat
deriving DecidableEq

/-- Modelled from the spec: `Symbol::is_local`, called by
src/compiler/compile.rs but absent from src/compiler/symbol_table.rs.
Per the spec, `define` gives scope LOCAL exactly when the table has an
outer parent and let/identifier compilation branches on local vs
otherwise, so `is_local` holds exactly for LOCAL scope. -/
def Symbol.is_local (s : Symbol) : Bool := s.scope = Scope.LOCAL

/-- `SymbolTable`: the `store` map (assoc list, later inserts shadow
earlier ones), `num_definitions`, the captured `free_symbols`, and the
optional `outer` parent. -/
inductive SymbolTable where
  | mk (store : List (String × Symbol)) (num_definitions : Nat)
       (free_symbols : List Symbol) (outer : Option SymbolTable)

def SymbolTable.store : SymbolTable → List (String × Symbol)
  | .mk s _ _ _ => s

def SymbolTable.num_definitions : SymbolTable → Nat
  | .mk _ n _ _ => n

def SymbolTable.free_symbols : SymbolTable → List Symbol
  | .mk _ _ f _ => f

def SymbolTable.outer : SymbolTable → Option SymbolTable
  | .mk _ _ _ o => o

/-- `HashMap::get` on the store: first (most recent) binding wins. -/
def storeGet (store : List (String × Symbol)) (name : String) : Option Symbol :=
  match store with
  | [] => none
  | (k, v) :: rest => if k = name then some v else storeGet rest name

/-- `SymbolTableDefinition::define`: a GLOBAL symbol, demoted to LOCAL
when an outer table exists; its index is the current `num_definitions`,
which is then incremented. -/
def SymbolTable.define : SymbolTable → String → Symbol × SymbolTable
  | .mk store nd fs outer, name =>
    let scope := if outer.isSome then Scope.LOCAL else Scope.GLOBAL
    let symbol : Symbol := ⟨name, scope, nd⟩
    (symbol, .mk ((name, symbol) :: store) (nd + 1) fs outer)

/-- `define_builtin`: installs a BUILTIN symbol without bumping
`num_definitions`. -/
def SymbolTable.define_builtin : SymbolTable → Nat → String → Symbol × SymbolTable
  | .mk store nd fs outer, index, name =>
    let symbol : Symbol := ⟨name, Scope.BUILTIN, index⟩
    (symbol, .mk ((name, symbol) :: store) nd fs outer)

/-- `define_function_name`: installs a FUNCTION-scope symbol with index
0. -/
def SymbolTable.define_function_name : SymbolTable → String → Symbol × SymbolTable
  | .mk store nd fs outer, name =>
    let symbol : Symbol := ⟨name, Scope.FUNCTION, 0⟩
    (symbol, .mk ((name, symbol) :: store) nd fs outer)

/-- `SymbolTable::new`: a fresh table with every builtin installed. -/
def SymbolTable.new : SymbolTable :=
  BUILTIN_FUNCTIONS.foldl
    (fun t iv => (t.define_builtin iv.1 iv.2).2)
    (.mk [] 0 [] none)

/-- `SymbolTable::new_enclosed`: a fresh table (builtins included)
whose outer parent is the given table. -/
def SymbolTable.new_enclosed (outer : SymbolTable) : SymbolTable :=
  match SymbolTable.new with
  | .mk store nd fs _ => .mk store nd fs (some outer)

/-- `define_free` (src/compiler/symbol_table.rs lines 110-126): append
the originating symbol to `free_symbols` and insert and return a new
FREE symbol whose index is its position there. -/
def SymbolTable.define_free : SymbolTable → Symbol → Symbol × SymbolTable
  | .mk store nd fs outer, original =>
    let fs₂ := fs ++ [original]
    let symbol : Symbol := ⟨original.name, Scope.FREE, fs₂.length - 1⟩
    (symbol, .mk ((original.name, symbol) :: store) nd fs₂ outer)

/-- `resolve` (src/compiler/symbol_table.rs lines 88-107): local store
first, then the outer chain; an outer hit whose scope is neither GLOBAL
nor BUILTIN is converted into a FREE binding in the current table via
`define_free`. -/
def SymbolTable.resolve : SymbolTable → String → Option Symbol × SymbolTable
  | .mk store nd fs outer, name =>
    match storeGet store name with
    | some s => (some s, .mk store nd fs outer)
    | none =>
      match outer with
      | none => (none, .mk store nd fs none)
      | some o =>
        match o.resolve name with
        | (none, o₂) => (none, .mk store nd fs (some o₂))
        | (some s, o₂) =>
          if s.scope = Scope.GLOBAL ∨ s.scope = Scope.BUILTIN then
            (some s, .mk store nd fs (some o₂))
          else
            let (f, t₂) := SymbolTable.define_free (.mk store nd fs (some o₂)) s
            (some f, t₂)

/-! ## AST subset (src/ast, an external interface)

Only the node shapes the claims exercise are embedded; the compiler
arms below translate the corresponding handlers of
src/compiler/compile.rs verbatim. -/

mutual

inductive Expr where
  | intLit (value : Int)
  | boolLit (value : Bool)
  | strLit (value : String)
  | ident (name : String)
  | fnLit (parameters : List String) (body : List Stmt)
  | callE (function : Expr) (arguments : List Expr)

inductive Stmt where
  | letS (name : String) (value : Expr)
  | exprS (e : Expr)
  | returnS (value : Expr)

end

/-! ## Compiler (src/compiler/mod.rs, src/compiler/compile.rs) -/

/-- `EmittedInstruction`: opcode and byte position, with the
`Default` of the Rust struct. -/
structure EmittedInstruction where
  opcode : Nat := 0
  position : Nat := 0

/-- `CompilationScope`: the scope's instruction buffer and its last /
previous emitted instructions. -/
structure CompilationScope where
  instructions : List Nat := []
  last_instruction : EmittedInstruction := {}
  previous_instruction : EmittedInstruction := {}

/-- `Compiler` state.  The scope stack is a list with the CURRENT scope
at the head (Rust pushes/pops at the back of a `Vec` and indexes it with
`scope_index`; head-of-list is that same top).  `scope_index` is kept as
the source keeps it. -/
structure Compiler where
  constants : List Value
  symbol_table : SymbolTable
  scopes : List CompilationScope
  scope_index : Nat

/-- `Compiler::new`. -/
def Compiler.new : Compiler :=
  { constants := [], symbol_table := SymbolTable.new, scopes := [{}], scope_index := 0 }

/-- The current (top) compilation scope; the source indexes
`scopes[scope_index]`, which is the top of the stack. -/
def Compiler.currentScope (c : Compiler) : CompilationScope :=
  c.scopes.headD {}

def Compiler.modifyCurrentScope (c : Compiler) (f : CompilationScope → CompilationScope) :
    Compiler :=
  { c with scopes := match c.scopes with
                     | [] => []
                     | s :: rest => f s :: rest }

/-- `current_instructions`. -/
def Compiler.currentInstructions (c : Compiler) : List Nat :=
  c.currentScope.instructions

/-- `set_last_instruction`. -/
def Compiler.set_last_instruction (c : Compiler) (opcode : Nat) (position : Nat) : Compiler :=
  c.modifyCurrentScope fun s =>
    { s with previous_instruction := s.last_instruction
             last_instruction := ⟨opcode, position⟩ }

/-- `emit`: assemble with `make` (a `make` panic propagates), append to
the current scope and record the last instruction; returns the position
of the new instruction. -/
def Compiler.emit (c : Compiler) (op : Nat) (operands : List Nat) : Res (Compiler × Nat) :=
  match make op operands with
  | none => .panicked "index out of bounds in make"
  | some ins =>
    let pos := c.currentInstructions.length
    let c := c.modifyCurrentScope fun s => { s with instructions := s.instructions ++ ins }
    .ok (c.set_last_instruction op pos, pos)

/-- `enter_scope`: push a fresh compilation scope and enclose the
symbol table. -/
def Compiler.enter_scope (c : Compiler) : Compiler :=
  { c with scopes := ({} : CompilationScope) :: c.scopes
           symbol_table := SymbolTable.new_enclosed c.symbol_table
           scope_index := c.scope_index + 1 }

/-- `leave_scope`: pop the current scope, resume the outer symbol table
(`outer.unwrap()`: every function scope has one, so the no-outer case
keeps the table and cannot occur on compile paths), and return the
popped scope's instructions. -/
def Compiler.leave_scope (c : Compiler) : List Nat × Compiler :=
  let ins := c.currentScope.instructions
  (ins,
   { c with scopes := c.scopes.tail
            symbol_table := match c.symbol_table.outer with
                            | some o => o
                            | none => c.symbol_table
            scope_index := c.scope_index - 1 })

/-- `add_constant`: append and return the zero-based index. -/
def Compiler.add_constant (c : Compiler) (obj : Value) : Compiler × Nat :=
  ({ c with constants := c.constants ++ [obj] }, c.constants.length)

/-- `last_instruction_is`. -/
def Compiler.last_instruction_is (c : Compiler) (op : Nat) : Bool :=
  if c.currentInstructions.isEmpty then false
  else c.currentScope.last_instruction.opcode = op

/-- `replace_instruction`: overwrite bytes in place starting at
`position` (the source `copy_from_slice` panics past the end; on
compile paths the replacement fits, `List.set` is a no-op there). -/
def Compiler.replace_instruction (c : Compiler) (position : Nat) (ins : List Nat) : Compiler :=
  c.modifyCurrentScope fun s =>
    { s with instructions :=
        (ins.enum.foldl (fun acc bi => acc.set (position + bi.1) bi.2) s.instructions) }

/-- The constant interned for a function literal.  The call site
(src/compiler/compile.rs line 202) hands `CompiledFunctionObj::new` only
the instruction buffer — no arity derived from the parameter count — so
the `num_args` field is taken as 0 here; no theorem rests on that
field. -/
def compiledFnConstant (ins : List Nat) : Value :=
  .compiledFunction ⟨ins, 0⟩

mutual

/-- The `Program` / `Block` iteration of `compile`. -/
def compileStmts (c : Compiler) (stmts : List Stmt) : Res Compiler :=
  match stmts with
  | [] => .ok c
  | s :: rest => do
    let c ← compileStmt c s
    compileStmts c rest

/-- The statement arms of `compile` (src/compiler/compile.rs):
`compile_let_statements`, `compile_expression_statement`, and the
Return arm. -/
def compileStmt (c : Compiler) (s : Stmt) : Res Compiler :=
  match s with
  | .letS name value => do
    let c ← compileExpr c value
    let (symbol, st) := c.symbol_table.define name
    let c := { c with symbol_table := st }
    if symbol.is_local then
      let (c, _) ← c.emit OP_SET_LOCAL [symbol.index]
      return c
    else
      let (c, _) ← c.emit OP_SET_GLOBAL [symbol.index]
      return c
  | .exprS e => do
    let c ← compileExpr c e
    let (c, _) ← c.emit OP_POP []
    return c
  | .returnS value => do
    let c ← compileExpr c value
    let (c, _) ← c.emit OP_RETURN_VALUE []
    return c

/-- The expression arms of `compile`: `compile_integer_literal`,
`compile_string_literal`, `compile_boolean_literal`,
`compile_identifier`, `compile_function_literals` and
`compile_call_expressions`, translated clause by clause. -/
def compileExpr (c : Compiler) (e : Expr) : Res Compiler :=
  match e with
  | .intLit value =>
    let (c, constant_index) := c.add_constant (.integer value)
    do
      let (c, _) ← c.emit OP_CONSTANT [constant_index]
      return c
  | .strLit value =>
    let (c, constant_index) := c.add_constant (.stringObj value)
    do
      let (c, _) ← c.emit OP_CONSTANT [constant_index]
      return c
  | .boolLit value => do
    let (c, _) ← if value then c.emit OP_TRUE [] else c.emit OP_FALSE []
    return c
  | .ident name =>
    -- compile_identifier: resolve, then GET_LOCAL for a local symbol
    -- and GET_GLOBAL for everything else.
    match c.symbol_table.resolve name with
    | (none, _) => .err ("undefined variable " ++ name)
    | (some symbol, st) =>
      let c := { c with symbol_table := st }
      if symbol.is_local then do
        let (c, _) ← c.emit OP_GET_LOCAL [symbol.index]
        return c
      else do
        let (c, _) ← c.emit OP_GET_GLOBAL [symbol.index]
        return c
  | .fnLit parameters body => do
    let c := c.enter_scope
    let c := parameters.foldl
      (fun c p => { c with symbol_table := (c.symbol_table.define p).2 }) c
    let c ← compileStmts c body
    -- replace last pop with return
    let c ←
      if c.last_instruction_is OP_POP then
        let last_pos := c.currentScope.last_instruction.position
        match make OP_RETURN_VALUE [] with
        | none => .panicked "index out of bounds in make"
        | some ins =>
          let c := c.replace_instruction last_pos ins
          pure (c.modifyCurrentScope fun s =>
            { s with last_instruction := { s.last_instruction with opcode := OP_RETURN_VALUE } })
      else pure c
    -- empty function case
    let c ←
      if c.last_instruction_is OP_RETURN_VALUE then pure c
      else do
        let (c, _) ← c.emit OP_RETURN []
        pure c
    let (fn_instructions, c) := c.leave_scope
    let (c, constant_index) := c.add_constant (compiledFnConstant fn_instructions)
    let (c, _) ← c.emit OP_CONSTANT [constant_index]
    return c
  | .callE function arguments => do
    let c ← compileExpr c function
    let num_args := arguments.length
    let c ← compileExprs c arguments
    let (c, _) ← c.emit OP_CALL [num_args]
    return c

/-- The argument iteration of `compile_call_expressions`. -/
def compileExprs (c : Compiler) (es : List Expr) : Res Compiler :=
  match es with
  | [] => .ok c
  | e :: rest => do
    let c ← compileExpr c e
    compileExprs c rest

end

/-- `ByteCode`. -/
structure ByteCode where
  instructions : List Nat
  constants : List Value

/-- `byte_code`. -/
def Compiler.byte_code (c : Compiler) : ByteCode :=
  { instructions := c.currentInstructions, constants := c.constants }

/-! ## Call frames and the VM (src/vm/frame.rs, src/vm/mod.rs)

The operand stack and the frame stack are lists with the top at the
head (Rust pushes and pops at the back of a `Vec`).  The `globals` and
`locals` vectors are indexed from the front, exactly as in the source.
Rust's i64 arithmetic is modelled with release-mode wrap-around
(`i64wrap`), which is also what the spec specifies ("wraps silently");
division keeps Rust's panics on a zero divisor and on
`i64::MIN / -1`. -/

/-- `STACK_SIZE` (src/vm/mod.rs line 15). -/
def STACK_SIZE : Nat := 2048

/-- `MAX_FRAMES` (src/vm/mod.rs line 18): "Maximum number of stack
frames that can exist at a given time". -/
def MAX_FRAMES : Nat := 1024

def TRUE : Value := .boolean true
def FALSE : Value := .boolean false
def NULL : Value := .null

/-- Two's-complement 64-bit wrap-around. -/
def i64wrap (z : Int) : Int := (z + 2 ^ 63) % 2 ^ 64 - 2 ^ 63

/-- `Closure` from src/object/objects.rs as the VM's frame component:
`Closure::new` takes the function and captures nothing. -/
structure Closure where
  func : CompiledFunctionObj
  free : List Value

def Closure.new (func : CompiledFunctionObj) : Closure := ⟨func, []⟩

/-- `Frame` from src/vm/frame.rs: the owning closure, the instruction
pointer, and the locals vector whose initial contents are the call
arguments. -/
structure Frame where
  closure : Closure
  ip : Nat
  locals : List Value

def Frame.new (func : CompiledFunctionObj) (arguments : List Value) : Frame :=
  { closure := Closure.new func, ip := 0, locals := arguments }

def Frame.instructions (f : Frame) : List Nat := f.closure.func.instructions

/-- `VM` state (src/vm/mod.rs). -/
structure VM where
  constants : List Value
  stack : List Value
  globals : List Value
  result : Option Value
  frames : List Frame
  frames_index : Nat

/-- `VM::new`: wrap the program in a synthetic main function /
frame. -/
def VM.new (bytecode : ByteCode) : VM :=
  let main_fn : CompiledFunctionObj := ⟨bytecode.instructions, 0⟩
  { constants := bytecode.constants
    stack := []
    globals := []
    result := none
    frames := [Frame.new main_fn []]
    frames_index := 1 }

/-- `current_frame`: `frames[frames_index - 1]`, the top of the frame
stack.  Rust panics when no frame exists; during `run` at least one
does, and the default stand-in (empty instructions) makes the loop
condition fail instead. -/
def VM.current_frame (vm : VM) : Frame :=
  vm.frames.headD (Frame.new ⟨[], 0⟩ [])

def VM.modifyFrame (vm : VM) (f : Frame → Frame) : VM :=
  { vm with frames := match vm.frames with
                      | [] => []
                      | fr :: rest => f fr :: rest }

/-- The `self.current_frame().ip += 1` at the bottom of the dispatch
loop. -/
def VM.bumpIp (vm : VM) : VM :=
  vm.modifyFrame fun fr => { fr with ip := fr.ip + 1 }

/-- `push` (src/vm/mod.rs lines 81-87): "stack overflow" at
`STACK_SIZE`. -/
def VM.push (vm : VM) (val : Value) : Res VM :=
  if vm.stack.length ≥ STACK_SIZE then .err "stack overflow"
  else .ok { vm with stack := val :: vm.stack }

/-- `pop` (src/vm/mod.rs lines 92-104): remove the top of stack; when
the stack becomes empty and the current frame's `ip + 1` has reached the
end of its instructions, also record the popped value as the final
`result`. -/
def VM.pop (vm : VM) : Res (Value × VM) :=
  match vm.stack with
  | [] => .err "stack is empty"
  | obj :: rest =>
    let vm := { vm with stack := rest }
    let vm :=
      if rest.isEmpty ∧ vm.current_frame.ip + 1 ≥ vm.current_frame.instructions.length then
        { vm with result := some obj }
      else vm
    .ok (obj, vm)

/-- `push_frame` (src/vm/mod.rs lines 110-113).  Note: no check against
`MAX_FRAMES` — the frame stack grows unconditionally. -/
def VM.push_frame (vm : VM) (f : Frame) : VM :=
  { vm with frames := f :: vm.frames, frames_index := vm.frames_index + 1 }

/-- `pop_frame` (src/vm/mod.rs lines 115-118); `unwrap` on an empty
frame stack is unreachable on run paths. -/
def VM.pop_frame (vm : VM) : VM :=
  { vm with frames := vm.frames.tail, frames_index := vm.frames_index - 1 }

/-- `result()`. -/
def VM.resultVal (vm : VM) : Option Value := vm.result

/-! ## The dispatch loop (src/vm/run.rs) -/

/-- `cast_obj_to_bool`: FALSE and NULL are false, everything else
true. -/
def castObjToBool (obj : Value) : Value :=
  match obj with
  | .boolean false => FALSE
  | .null => FALSE
  | _ => TRUE

def getBoolConstant (val : Bool) : Value := if val then TRUE else FALSE

/-- `run_arithmetic_operations` (src/vm/run.rs lines 61-103).  For two
integers the Rust source applies the bare i64 operator: `+`/`-`/`*`
wrap (release semantics, as specified), while `/` PANICS on a zero
divisor or on `i64::MIN / -1` — it does not return a VM error. -/
def VM.run_arithmetic_operations (vm : VM) (op : Nat) : Res VM := do
  let (right, vm) ← vm.pop
  let (left, vm) ← vm.pop
  if left.is_string && right.is_string then
    if op ≠ OP_ADD then .err "incorrect operation on strings"
    else
      match left, right with
      | .stringObj left_val, .stringObj right_val =>
        vm.push (.stringObj (left_val ++ right_val))
      | _, _ => .panicked "unreachable"
  else if left.is_integer && right.is_integer then
    match left, right with
    | .integer left_value, .integer right_value =>
      if op = OP_ADD then vm.push (.integer (i64wrap (left_value + right_value)))
      else if op = OP_SUB then vm.push (.integer (i64wrap (left_value - right_value)))
      else if op = OP_MUL then vm.push (.integer (i64wrap (left_value * right_value)))
      else if op = OP_DIV then
        if right_value = 0 then .panicked "attempt to divide by zero"
        else if left_value = -(2 ^ 63) ∧ right_value = -1 then
          .panicked "attempt to divide with overflow"
        else vm.push (.integer (Int.tdiv left_value right_value))
      else .panicked "unreachable"
    | _, _ => .panicked "unreachable"
  else
    .err "arithmetic operations are only supported between strings or integers"

/-- `run_comparison_for_ints`. -/
def VM.run_comparison_for_ints (vm : VM) (op : Nat) (l r : Value) : Res VM :=
  match l, r with
  | .integer left, .integer right =>
    if op = OP_EQUAL then vm.push (getBoolConstant (left = right))
    else if op = OP_NOT_EQUAL then vm.push (getBoolConstant (left ≠ right))
    else if op = OP_GREATER_THAN then vm.push (getBoolConstant (left > right))
    else .panicked "unreachable"
  | _, _ => .panicked "unreachable"

/-- `run_comparison_for_bools`: GREATER_THAN of booleans is
`left ∧ ¬right`. -/
def VM.run_comparison_for_bools (vm : VM) (op : Nat) (l r : Value) : Res VM :=
  match l, r with
  | .boolean left, .boolean right =>
    if op = OP_EQUAL then vm.push (getBoolConstant (left = right))
    else if op = OP_NOT_EQUAL then vm.push (getBoolConstant (left ≠ right))
    else if op = OP_GREATER_THAN then vm.push (getBoolConstant (left && !right))
    else .panicked "unreachable"
  | _, _ => .panicked "unreachable"

/-- `run_boolean_operations` (src/vm/run.rs lines 105-120): integers
and booleans compare by value; every other pairing — strings included —
is the "operand types doesn't match" runtime error. -/
def VM.run_boolean_operations (vm : VM) (op : Nat) : Res VM := do
  let (right, vm) ← vm.pop
  let (left, vm) ← vm.pop
  if left.is_integer && right.is_integer then
    vm.run_comparison_for_ints op left right
  else if left.is_boolean && right.is_boolean then
    vm.run_comparison_for_bools op left right
  else
    .err ("left " ++ displayObjectType left.object_type ++ " and right "
      ++ displayObjectType right.object_type ++ " operand types doesn't match")

/-- `run_constant_instruction`. -/
def VM.run_constant_instruction (vm : VM) : Res VM := do
  let ip := vm.current_frame.ip
  match readU16 (vm.current_frame.instructions.drop (ip + 1)) with
  | none => .panicked "index out of range"
  | some const_index =>
    match vm.constants.get? const_index with
    | none => .err ("constant at the index " ++ toString const_index ++ " not found")
    | some v => do
      let vm ← vm.push v
      .ok (vm.modifyFrame fun fr => { fr with ip := fr.ip + 2 })

/-- `run_set_global_instruction`: advance past the operand, pop, then
write the global (appending when the index is missing). -/
def VM.run_set_global_instruction (vm : VM) : Res VM := do
  let ip := vm.current_frame.ip
  match readU16 (vm.current_frame.instructions.drop (ip + 1)) with
  | none => .panicked "index out of range"
  | some global_index =>
    let vm := vm.modifyFrame fun fr => { fr with ip := fr.ip + 2 }
    let (last_pushed, vm) ← vm.pop
    if (vm.globals.get? global_index).isNone then
      .ok { vm with globals := vm.globals ++ [last_pushed] }
    else
      .ok { vm with globals := vm.globals.set global_index last_pushed }

/-- `run_assign_global_instruction`: error when the index is absent,
then push NULL (assignment is an expression yielding null). -/
def VM.run_assign_global_instruction (vm : VM) : Res VM := do
  let ip := vm.current_frame.ip
  match readU16 (vm.current_frame.instructions.drop (ip + 1)) with
  | none => .panicked "index out of range"
  | some var_index =>
    let vm := vm.modifyFrame fun fr => { fr with ip := fr.ip + 2 }
    let (last_pushed, vm) ← vm.pop
    if (vm.globals.get? var_index).isNone then
      .err ("variable at index " ++ toString var_index ++ " not found")
    else
      let vm := { vm with globals := vm.globals.set var_index last_pushed }
      vm.push NULL

/-- `run_set_local_instruction`. -/
def VM.run_set_local_instruction (vm : VM) : Res VM := do
  let ip := vm.current_frame.ip
  match readU8 (vm.current_frame.instructions.drop (ip + 1)) with
  | none => .panicked "index out of range"
  | some local_index =>
    let vm := vm.modifyFrame fun fr => { fr with ip := fr.ip + 1 }
    let (last_pushed, vm) ← vm.pop
    if (vm.current_frame.locals.get? local_index).isNone then
      .ok (vm.modifyFrame fun fr => { fr with locals := fr.locals ++ [last_pushed] })
    else
      .ok (vm.modifyFrame fun fr => { fr with locals := fr.locals.set local_index last_pushed })

/-- `run_get_builtin`. -/
def VM.run_get_builtin (vm : VM) : Res VM := do
  let ip := vm.current_frame.ip
  match readU8 (vm.current_frame.instructions.drop (ip + 1)) with
  | none => .panicked "index out of range"
  | some builtin_index =>
    let vm := vm.modifyFrame fun fr => { fr with ip := fr.ip + 1 }
    match get_builtin_function builtin_index with
    | none => .err ("builtin function with index " ++ toString builtin_index ++ " not found")
    | some func => vm.push func

/-- `run_get_global_instruction`. -/
def VM.run_get_global_instruction (vm : VM) : Res VM := do
  let ip := vm.current_frame.ip
  match readU16 (vm.current_frame.instructions.drop (ip + 1)) with
  | none => .panicked "index out of range"
  | some global_index =>
    let vm := vm.modifyFrame fun fr => { fr with ip := fr.ip + 2 }
    match vm.globals.get? global_index with
    | none => .err ("variable at index " ++ toString global_index ++ " not found")
    | some v => vm.push v

/-- `run_get_local_instruction`. -/
def VM.run_get_local_instruction (vm : VM) : Res VM := do
  let ip := vm.current_frame.ip
  match readU8 (vm.current_frame.instructions.drop (ip + 1)) with
  | none => .panicked "index out of range"
  | some local_index =>
    let vm := vm.modifyFrame fun fr => { fr with ip := fr.ip + 1 }
    match vm.current_frame.locals.get? local_index with
    | none => .err ("variable at index " ++ toString local_index ++ " not found")
    | some v => vm.push v

/-- The `for _ in 0..arr_len { self.pop()? }` loop of the array
handler: errors propagate. -/
def VM.popN (vm : VM) : Nat → Res (List Value × VM)
  | 0 => .ok ([], vm)
  | n + 1 => do
    let (element, vm) ← vm.pop
    let (rest, vm) ← vm.popN n
    .ok (element :: rest, vm)

/-- `run_array_literal_instruction`: pop N elements, reverse, push the
array. -/
def VM.run_array_literal_instruction (vm : VM) : Res VM := do
  let ip := vm.current_frame.ip
  match readU16 (vm.current_frame.instructions.drop (ip + 1)) with
  | none => .panicked "index out of range"
  | some arr_len =>
    let vm := vm.modifyFrame fun fr => { fr with ip := fr.ip + 2 }
    let (elements, vm) ← vm.popN arr_len
    vm.push (.arrayObj elements.reverse)

/-- The `for _ in 0..map_len { value ← pop; key ← pop; insert }` loop
of the hash handler. -/
def VM.popPairs (vm : VM) (pairs : List (Value × Value)) :
    Nat → Res (List (Value × Value) × VM)
  | 0 => .ok (pairs, vm)
  | n + 1 => do
    let (value, vm) ← vm.pop
    let (key, vm) ← vm.pop
    vm.popPairs (assocInsert pairs key value).1 n

/-- `run_hash_literal_instruction`. -/
def VM.run_hash_literal_instruction (vm : VM) : Res VM := do
  let ip := vm.current_frame.ip
  match readU16 (vm.current_frame.instructions.drop (ip + 1)) with
  | none => .panicked "index out of range"
  | some map_len =>
    let vm := vm.modifyFrame fun fr => { fr with ip := fr.ip + 2 }
    let (pairs, vm) ← vm.popPairs [] map_len
    vm.push (.hashMapObj pairs)

/-- `run_index_expression` (src/vm/run.rs lines 250-293). -/
def VM.run_index_expression (vm : VM) : Res VM := do
  let (index, vm) ← vm.pop
  let (indexable, vm) ← vm.pop
  if indexable.object_type = ObjectType.array then
    match index with
    | .integer idx =>
      if idx < 0 then .err "index should be a positive integer"
      else
        match indexable with
        | .arrayObj elements =>
          match elements.get? idx.toNat with
          | none => .err "index out of bounds"
          | some value => vm.push value
        | _ => .panicked "unreachable"
    | _ => .err "index should be an integer"
  else if indexable.object_type = ObjectType.hashMap then
    match indexable with
    | .hashMapObj pairs =>
      match assocFind pairs index with
      | some v => vm.push v
      | none => vm.push NULL
    | _ => .panicked "unreachable"
  else
    .err "indexing is only supported for arrays and hash-maps"

/-- `run_jump_not_truthy_instruction`: pop and cast to bool; when
false, jump to `target - 1` (the loop post-increments); otherwise skip
the 2-byte operand. -/
def VM.run_jump_not_truthy_instruction (vm : VM) : Res VM := do
  let (cond, vm) ← vm.pop
  match castObjToBool cond with
  | .boolean condition =>
    if !condition then
      let ip := vm.current_frame.ip
      match readU16 (vm.current_frame.instructions.drop (ip + 1)) with
      | none => .panicked "index out of range"
      | some jump_position =>
        .ok (vm.modifyFrame fun fr => { fr with ip := jump_position - 1 })
    else
      .ok (vm.modifyFrame fun fr => { fr with ip := fr.ip + 2 })
  | _ => .panicked "unreachable"

/-- `run_jump_instruction`. -/
def VM.run_jump_instruction (vm : VM) : Res VM := do
  let ip := vm.current_frame.ip
  match readU16 (vm.current_frame.instructions.drop (ip + 1)) with
  | none => .panicked "index out of range"
  | some jump_position =>
    .ok (vm.modifyFrame fun fr => { fr with ip := jump_position - 1 })

/-- `run_closure_instruction` (src/vm/run.rs lines 323-340): read the
constant index, read AND DISCARD the free-count byte, and push a
closure that captures nothing. -/
def VM.run_closure_instruction (vm : VM) : Res VM := do
  let ip := vm.current_frame.ip
  match readU16 (vm.current_frame.instructions.drop (ip + 1)) with
  | none => .panicked "index out of range"
  | some const_index =>
    match readU8 (vm.current_frame.instructions.drop (ip + 3)) with
    | none => .panicked "index out of range"
    | some _ =>
      let vm := vm.modifyFrame fun fr => { fr with ip := fr.ip + 3 }
      match vm.constants.get? const_index with
      | none => .err ("constant at index " ++ toString const_index ++ " not found")
      | some obj =>
        match obj with
        | .compiledFunction func => vm.push (.closure (Closure.new func).func (Closure.new func).free)
        | v => .err ("not a function: " ++ inspect v)

/-- The `(0..num_args).filter_map(|_| self.pop().ok())` of the call
handler: pop failures are swallowed, successful pops are collected in
pop order. -/
def VM.popArgsLoop (vm : VM) : Nat → List Value × VM
  | 0 => ([], vm)
  | n + 1 =>
    match vm.pop with
    | .ok (v, vm₂) =>
      let (rest, vm₃) := vm₂.popArgsLoop n
      (v :: rest, vm₃)
    | _ =>
      let (rest, vm₃) := vm.popArgsLoop n
      (rest, vm₃)

/-- `run_prefix_minus`: integer negation (wrapping, like the
source's release build). -/
def VM.run_prefix_minus (vm : VM) : Res VM := do
  let (v, vm) ← vm.pop
  match v with
  | .integer right => vm.push (.integer (i64wrap (-right)))
  | v => .err ("expected an INTEGER, found " ++ inspect v)

/-- `run_prefix_bang`. -/
def VM.run_prefix_bang (vm : VM) : Res VM := do
  let (v, vm) ← vm.pop
  match v with
  | .boolean true => vm.push FALSE
  | .boolean false => vm.push TRUE
  | .null => vm.push TRUE
  | _ => vm.push FALSE

/-- `run_call_expression` (src/vm/run.rs lines 342-379): read the
8-bit argument count at `ip + 1`, pop that many arguments (failures
swallowed by `filter_map(.. .ok())`), reverse them, pop the callee, and
dispatch: a closure gets an arity check, a fresh frame and a recursive
`self.run()` (passed in as `runF`); a builtin gets an arity check
(unless variadic) and a native call; anything else is an error. -/
def VM.run_call_expression (vm : VM) (runF : VM → Res VM) : Res VM := do
  let ip := vm.current_frame.ip
  match readU8 (vm.current_frame.instructions.drop (ip + 1)) with
  | none => .panicked "index out of range"
  | some num_args =>
    let vm := vm.modifyFrame fun fr => { fr with ip := fr.ip + 1 }
    let (popped, vm) := vm.popArgsLoop num_args
    let local_args := popped.reverse
    let (callee, vm) ← vm.pop
    match callee with
    | .closure func _ =>
      if local_args.length ≠ func.num_args then
        .err ("wrong number of arguments: want=" ++ toString func.num_args
          ++ ", got=" ++ toString local_args.length)
      else
        let vm := vm.push_frame (Frame.new func local_args)
        runF vm
    | .builtinFunction builtin =>
      if local_args.length ≠ builtin.num_params ∧ builtin.num_params ≠ USIZE_MAX then
        .err ("wrong number of arguments: want=" ++ toString builtin.num_params
          ++ ", got=" ++ toString local_args.length)
      else do
        let result ← applyBuiltin builtin.fn_name local_args
        vm.push result
    | v => .err ("expected a function, found " ++ inspect v)

/-- The opcodes src/vm/run.rs's dispatch loop matches on (every other
byte falls into the `_ => {}` arm). -/
def knownOpcodes : List Nat :=
  [OP_CONSTANT, OP_ADD, OP_SUB, OP_MUL, OP_DIV,
   OP_EQUAL, OP_NOT_EQUAL, OP_GREATER_THAN,
   OP_TRUE, OP_FALSE, OP_MINUS, OP_BANG,
   OP_SET_GLOBAL, OP_GET_GLOBAL, OP_SET_LOCAL, OP_GET_LOCAL,
   OP_ARRAY, OP_HASH, OP_INDEX, OP_CLOSURE, OP_CALL,
   OP_ASSIGN_GLOBAL, OP_GET_BUILTIN,
   OP_RETURN_VALUE, OP_RETURN, OP_POP,
   OP_JUMP_NOT_TRUTHY, OP_JUMP, OP_NULL]

/-- The body of the dispatch loop (src/vm/run.rs lines 21-54): one
`match op` step.  `runF` is the recursive `self.run()` used by the call
handler.  A byte matching no arm does nothing (`_ => {}`). -/
def execOp (runF : VM → Res VM) (vm : VM) (op : Nat) : Res VM :=
  if op = OP_CONSTANT then vm.run_constant_instruction
  else if op = OP_ADD ∨ op = OP_SUB ∨ op = OP_MUL ∨ op = OP_DIV then
    vm.run_arithmetic_operations op
  else if op = OP_EQUAL ∨ op = OP_NOT_EQUAL ∨ op = OP_GREATER_THAN then
    vm.run_boolean_operations op
  else if op = OP_TRUE then vm.push TRUE
  else if op = OP_FALSE then vm.push FALSE
  else if op = OP_MINUS then vm.run_prefix_minus
  else if op = OP_BANG then vm.run_prefix_bang
  else if op = OP_SET_GLOBAL then vm.run_set_global_instruction
  else if op = OP_GET_GLOBAL then vm.run_get_global_instruction
  else if op = OP_SET_LOCAL then vm.run_set_local_instruction
  else if op = OP_GET_LOCAL then vm.run_get_local_instruction
  else if op = OP_ARRAY then vm.run_array_literal_instruction
  else if op = OP_HASH then vm.run_hash_literal_instruction
  else if op = OP_INDEX then vm.run_index_expression
  else if op = OP_CLOSURE then vm.run_closure_instruction
  else if op = OP_CALL then vm.run_call_expression runF
  else if op = OP_ASSIGN_GLOBAL then vm.run_assign_global_instruction
  else if op = OP_GET_BUILTIN then vm.run_get_builtin
  else if op = OP_RETURN_VALUE then .ok vm.pop_frame
  else if op = OP_RETURN then do
    let vm := vm.pop_frame
    vm.push NULL
  else if op = OP_POP then do
    let (_, vm) ← vm.pop
    .ok vm
  else if op = OP_JUMP_NOT_TRUTHY then vm.run_jump_not_truthy_instruction
  else if op = OP_JUMP then vm.run_jump_instruction
  else if op = OP_NULL then vm.push NULL
  else .ok vm

/-- `run` (src/vm/run.rs lines 16-59), with a fuel parameter for
totality: while the active frame's `ip` is inside its instructions,
dispatch the opcode byte at `ip` and then post-increment `ip`.  The
call handler re-enters the loop with the remaining fuel. -/
def runVM : Nat → VM → Res VM
  | 0, _ => .fuel
  | n + 1, vm =>
    if vm.current_frame.ip < vm.current_frame.instructions.length then
      match execOp (fun v => runVM n v) vm
          (vm.current_frame.instructions.getD vm.current_frame.ip 0) with
      | .ok vm₂ => runVM n vm₂.bumpIp
      | .err msg => .err msg
      | .panicked msg => .panicked msg
      | .fuel => .fuel
    else .ok vm

/-- The observable result of a finished run: `result()` after `run()`
returned `Ok`. -/
def resultAfterRun (fuel : Nat) (bytecode : ByteCode) : Option Value :=
  match runVM fuel (VM.new bytecode) with
  | .ok vm => vm.resultVal
  | _ => none

/-! ## Claims -/

/-- Claim C1.  The claim says a DIV whose popped integer divisor is
zero makes `run()` fail with a runtime error surfaced via the VM error
path (an error value, not a crash).  The code instead applies Rust's
`/` to the raw i64s (src/vm/run.rs line 94), which panics and aborts
the process: running the bytecode of `1 / 0` ends in the `panicked`
outcome, not in an `err` one.  This contradicts the spec's §7 error
taxonomy ("division by zero" as a runtime error) and §9 ("specify it as
a runtime error rather than a panic"): a code bug. -/
theorem div_by_zero_panics :
    runVM 10 (VM.new ⟨[OP_CONSTANT, 0, 0, OP_CONSTANT, 0, 1, OP_DIV],
      [.integer 1, .integer 0]⟩) = .panicked "attempt to divide by zero" := rfl

/-- The observables of a compile result: the emitted instruction bytes
of the current scope, the constant pool, and the opcode recorded as the
last emitted instruction. -/
def compileOutcome (r : Res Compiler) : Option (List Nat × List Value × Nat) :=
  match r with
  | .ok c => some (c.currentInstructions, c.constants, c.currentScope.last_instruction.opcode)
  | _ => none

/-- Claim C2.  The claim says that after compiling a function literal's
body and leaving its scope the compiler interns a CompiledFunction
constant with arity = parameter count and emits a CLOSURE instruction
with two operands (constant index, free-variable count).  Compiling
`fn() \x7b \x7d` in fact emits a CONSTANT instruction with the single
2-byte constant-pool operand — the last emitted opcode is OP_CONSTANT,
not OP_CLOSURE — and the call site interning the constant passes no
arity at all (src/compiler/compile.rs lines 202-204).  The repository's
own compiler tests (`test_function_literals`) expect
`make(OP_CLOSURE, &[idx, 0])` here: a code bug. -/
theorem fn_literal_emits_constant_not_closure :
    compileOutcome (compileExpr Compiler.new (.fnLit [] []))
        = some ([OP_CONSTANT, 0, 0], [.compiledFunction ⟨[OP_RETURN], 0⟩], OP_CONSTANT)
      ∧ OP_CONSTANT ≠ OP_CLOSURE :=
  ⟨rfl, by decide⟩

/-- Claim C3.  The claim says identifier compilation emits the load
instruction matching the resolved symbol's scope, GET_BUILTIN for
BUILTIN symbols among them.  `compile_identifier`
(src/compiler/compile.rs lines 90-102) only distinguishes
`is_local`: the builtin identifier `len`, which resolves to the BUILTIN
symbol of index 1, is emitted as GET_GLOBAL 1 (bytes [17, 0, 2-byte 1]),
not GET_BUILTIN 1 — and a FREE symbol would likewise get GET_GLOBAL.
The repository's own `test_builtins` expects
`make(OP_GET_BUILTIN, &[1])`: a code bug. -/
theorem builtin_identifier_emits_get_global :
    compileOutcome (compileExpr Compiler.new (.ident "len"))
        = some ([OP_GET_GLOBAL, 0, 1], [], OP_GET_GLOBAL)
      ∧ OP_GET_GLOBAL ≠ OP_GET_BUILTIN :=
  ⟨rfl, by decide⟩

/-- Claim C4.  The claim says `lookup(CALL)` declares one 1-byte
operand and `make(CALL, [n])` yields the two-byte instruction.  The
opcode table (src/code/mod.rs line 85) declares `OpCall` with NO
operands, so `make(OP_CALL, [0])` indexes `operand_widths[0]` out of
bounds and panics instead of producing `[22, 0]` — even though
`run_call_expression` does read an 8-bit operand at `ip + 1` and the
repository's own `test_function_calls` builds `make(OP_CALL, &[0])`
instructions: a code bug in the declared operand widths. -/
theorem call_opcode_declares_no_operand :
    (lookup OP_CALL).map Definition.operand_widths = some []
      ∧ make OP_CALL [0] = none
      ∧ ([] : List Nat) ≠ [1] :=
  ⟨rfl, rfl, by decide⟩

/-- The bytecode of `let a = 5;`: a trailing SET_GLOBAL and no POP
anywhere. -/
def letProgram : ByteCode :=
  ⟨[OP_CONSTANT, 0, 0, OP_SET_GLOBAL, 0, 0], [.integer 5]⟩

/-- Claim C6 counterexample.  The claim says `result()` is empty after
a run that never dispatches a POP, naming a program ending in
SET_GLOBAL as the example.  Running exactly that program —
`let a = 5;`, whose instructions contain no POP byte at all — leaves
`result()` = `Some(Integer 5)`, because `pop()` (src/vm/mod.rs lines
92-104) records ANY popped value that empties the stack while the
active frame sits on its last instruction, and SET_GLOBAL's operand pop
qualifies. -/
theorem let_program_sets_result :
    resultAfterRun 10 letProgram = some (.integer 5)
      ∧ OP_POP ∉ letProgram.instructions :=
  ⟨rfl, by decide⟩

/-- Binding an `ok` result in the `Res` monad applies the
continuation. -/
theorem Res.bind_ok {A B : Type} (a : A) (f : A → Res B) :
    (Res.ok a >>= f) = f a := rfl

/-- The general behavior of `pop` (src/vm/mod.rs lines 92-104) on ANY
VM state and stack: the popped value is recorded as `result` exactly
when it empties the operand stack while the active frame's `ip + 1` has
reached the end of its instructions; every other pop leaves `result`
as it was (and no other field but the stack changes). -/
theorem pop_result_update (vm : VM) (v : Value) (rest : List Value)
    (h : vm.stack = v :: rest) :
    vm.pop = .ok (v,
      { vm with
          stack := rest
          result :=
            if rest.isEmpty ∧ vm.current_frame.ip + 1 ≥ vm.current_frame.instructions.length
            then some v else vm.result }) := by
  obtain ⟨cs, st, gl, res, frs, fi⟩ := vm
  simp only at h
  subst h
  simp only [VM.pop, VM.current_frame]
  split_ifs <;> rfl

/-- Claim C6, amended.  `result()` returns the most recent value whose
pop emptied the operand stack while the active frame's instruction
pointer sat on its final instruction: (1) every `pop` — whatever
opcode's handler invokes it — overwrites `result` with the popped value
exactly under that condition and leaves `result` unchanged otherwise,
so the last such pop of a run is what `result()` reports; (2) any run
arriving at a trailing POP (a final expression statement) with the
value on the stack completes with that value as `result()`; and (3) any
run arriving at a trailing SET_GLOBAL (a final let statement) with the
let value on the stack likewise completes with that value as
`result()`, not with an empty result. -/
theorem result_is_stack_emptying_pop_at_final_ip :
    (∀ (vm : VM) (v : Value) (rest : List Value), vm.stack = v :: rest →
      vm.pop = .ok (v,
        { vm with
            stack := rest
            result :=
              if rest.isEmpty ∧ vm.current_frame.ip + 1 ≥ vm.current_frame.instructions.length
              then some v else vm.result }))
    ∧ (∀ (n : Nat) (vm : VM) (v : Value),
        vm.current_frame.instructions.getD vm.current_frame.ip 0 = OP_POP →
        vm.current_frame.ip + 1 = vm.current_frame.instructions.length →
        vm.stack = [v] →
        ∃ vm₂, runVM (n + 1 + 1) vm = .ok vm₂ ∧ vm₂.result = some v)
    ∧ (∀ (n : Nat) (vm : VM) (v : Value) (b1 b2 : Nat),
        vm.current_frame.instructions.getD vm.current_frame.ip 0 = OP_SET_GLOBAL →
        vm.current_frame.instructions.drop (vm.current_frame.ip + 1) = [b1, b2] →
        vm.stack = [v] →
        ∃ vm₂, runVM (n + 1 + 1) vm = .ok vm₂ ∧ vm₂.result = some v) := by
  refine ⟨pop_result_update, ?_, ?_⟩
  · intro n vm v hopc hlen hstack
    obtain ⟨cs, st, gl, res, frs, fi⟩ := vm
    simp only at hstack
    subst hstack
    cases frs with
    | nil =>
      simp [VM.current_frame, Frame.new, Frame.instructions, Closure.new] at hlen
    | cons fr rest₂ =>
      simp only [VM.current_frame, List.headD_cons, Frame.instructions] at hopc hlen
      have hpop : (VM.mk cs [v] gl res (fr :: rest₂) fi).pop
          = .ok (v, VM.mk cs [] gl (some v) (fr :: rest₂) fi) := by
        rw [pop_result_update _ v [] rfl]
        simp only [VM.current_frame, List.headD_cons, Frame.instructions]
        rw [if_pos ⟨rfl, by omega⟩]
      have hexec : execOp (fun w => runVM (n + 1) w)
          (VM.mk cs [v] gl res (fr :: rest₂) fi) OP_POP
          = .ok (VM.mk cs [] gl (some v) (fr :: rest₂) fi) := by
        show (do
          let (_, vm₂) ← (VM.mk cs [v] gl res (fr :: rest₂) fi).pop
          Res.ok vm₂ : Res VM) = _
        rw [hpop]
        rfl
      have hrun1 : runVM (n + 1 + 1) (VM.mk cs [v] gl res (fr :: rest₂) fi)
          = runVM (n + 1) (VM.mk cs [] gl (some v) (fr :: rest₂) fi).bumpIp := by
        rw [runVM]
        simp only [VM.current_frame, List.headD_cons, Frame.instructions]
        rw [if_pos (show fr.ip < fr.closure.func.instructions.length by omega), hopc, hexec]
      have hbump : (VM.mk cs [] gl (some v) (fr :: rest₂) fi).bumpIp
          = VM.mk cs [] gl (some v) ({ fr with ip := fr.ip + 1 } :: rest₂) fi := rfl
      have hrun2 : runVM (n + 1)
            (VM.mk cs [] gl (some v) ({ fr with ip := fr.ip + 1 } :: rest₂) fi)
          = .ok (VM.mk cs [] gl (some v) ({ fr with ip := fr.ip + 1 } :: rest₂) fi) := by
        rw [runVM]
        simp only [VM.current_frame, List.headD_cons, Frame.instructions]
        rw [if_neg (by omega)]
      exact ⟨_, (hrun1.trans (hbump ▸ hrun2)), rfl⟩
  · intro n vm v b1 b2 hopc hbytes hstack
    obtain ⟨cs, st, gl, res, frs, fi⟩ := vm
    simp only at hstack
    subst hstack
    cases frs with
    | nil =>
      simp [VM.current_frame, Frame.new, Frame.instructions, Closure.new] at hbytes
    | cons fr rest₂ =>
      simp only [VM.current_frame, List.headD_cons, Frame.instructions] at hopc hbytes
      have hlenEq := congrArg List.length hbytes
      simp only [List.length_drop, List.length_cons, List.length_nil] at hlenEq
      have hlen3 : fr.closure.func.instructions.length = fr.ip + 3 := by omega
      have hpopA : (VM.mk cs [v] gl res ({ fr with ip := fr.ip + 2 } :: rest₂) fi).pop
          = .ok (v, VM.mk cs [] gl (some v) ({ fr with ip := fr.ip + 2 } :: rest₂) fi) := by
        rw [pop_result_update _ v [] rfl]
        simp only [VM.current_frame, List.headD_cons, Frame.instructions]
        rw [if_pos ⟨rfl, by omega⟩]
      have hset : (VM.mk cs [v] gl res (fr :: rest₂) fi).run_set_global_instruction
          = .ok (VM.mk cs []
              (if (gl.get? (256 * b1 + b2)).isNone then gl ++ [v] else gl.set (256 * b1 + b2) v)
              (some v) ({ fr with ip := fr.ip + 2 } :: rest₂) fi) := by
        rw [VM.run_set_global_instruction]
        simp only [VM.current_frame, List.headD_cons, Frame.instructions]
        rw [hbytes]
        simp only [readU16, VM.modifyFrame, hpopA, Res.bind_ok]
        split_ifs <;> rfl
      have hexec : execOp (fun w => runVM (n + 1) w) (VM.mk cs [v] gl res (fr :: rest₂) fi)
          OP_SET_GLOBAL = (VM.mk cs [v] gl res (fr :: rest₂) fi).run_set_global_instruction := rfl
      have hrun1 : runVM (n + 1 + 1) (VM.mk cs [v] gl res (fr :: rest₂) fi)
          = runVM (n + 1) (VM.mk cs []
              (if (gl.get? (256 * b1 + b2)).isNone then gl ++ [v] else gl.set (256 * b1 + b2) v)
              (some v) ({ fr with ip := fr.ip + 2 } :: rest₂) fi).bumpIp := by
        rw [runVM]
        simp only [VM.current_frame, List.headD_cons, Frame.instructions]
        rw [if_pos (show fr.ip < fr.closure.func.instructions.length by omega), hopc, hexec, hset]
      have hbump : (VM.mk cs []
            (if (gl.get? (256 * b1 + b2)).isNone then gl ++ [v] else gl.set (256 * b1 + b2) v)
            (some v) ({ fr with ip := fr.ip + 2 } :: rest₂) fi).bumpIp
          = VM.mk cs []
              (if (gl.get? (256 * b1 + b2)).isNone then gl ++ [v] else gl.set (256 * b1 + b2) v)
              (some v) ({ fr with ip := fr.ip + 2 + 1 } :: rest₂) fi := rfl
      have hrun2 : runVM (n + 1) (VM.mk cs []
            (if (gl.get? (256 * b1 + b2)).isNone then gl ++ [v] else gl.set (256 * b1 + b2) v)
            (some v) ({ fr with ip := fr.ip + 2 + 1 } :: rest₂) fi)
          = .ok (VM.mk cs []
              (if (gl.get? (256 * b1 + b2)).isNone then gl ++ [v] else gl.set (256 * b1 + b2) v)
              (some v) ({ fr with ip := fr.ip + 2 + 1 } :: rest₂) fi) := by
        rw [runVM]
        simp only [VM.current_frame, List.headD_cons, Frame.instructions]
        rw [if_neg (by omega)]
      exact ⟨_, (hrun1.trans (hbump ▸ hrun2)), rfl⟩

/-- A VM whose single frame sits at the start of the one-instruction
program `[POP]` with one value on the stack. -/
def finalPopVM : VM :=
  { constants := [], stack := [.integer 3], globals := [], result := none,
    frames := [Frame.new ⟨[OP_POP], 0⟩ []], frames_index := 1 }

/-- A VM whose single frame sits at the start of the one-instruction
program `[SET_GLOBAL 0]` with one value on the stack — the tail of a
compiled `let` statement. -/
def finalSetGlobalVM : VM :=
  { constants := [], stack := [.integer 5], globals := [], result := none,
    frames := [Frame.new ⟨[OP_SET_GLOBAL, 0, 0], 0⟩ []], frames_index := 1 }

theorem result_is_stack_emptying_pop_at_final_ip_witness :
    (finalPopVM.pop
      = .ok (.integer 3, { finalPopVM with stack := [], result := some (.integer 3) }))
    ∧ (∃ vm₂, runVM 3 finalPopVM = .ok vm₂ ∧ vm₂.result = some (.integer 3))
    ∧ (∃ vm₂, runVM 3 finalSetGlobalVM = .ok vm₂ ∧ vm₂.result = some (.integer 5)) :=
  ⟨result_is_stack_emptying_pop_at_final_ip.1 finalPopVM (.integer 3) [] rfl,
   result_is_stack_emptying_pop_at_final_ip.2.1 1 finalPopVM (.integer 3) rfl rfl rfl,
   result_is_stack_emptying_pop_at_final_ip.2.2 1 finalSetGlobalVM (.integer 5) 0 0
     rfl rfl rfl⟩

/-- A VM whose frame stack already holds `MAX_FRAMES` (1,024)
frames. -/
def vmAtFrameCap : VM :=
  { constants := [], stack := [], globals := [], result := none,
    frames := List.replicate MAX_FRAMES (Frame.new ⟨[], 0⟩ []),
    frames_index := MAX_FRAMES }

/-- Claim C7.  The claim says the VM rejects a frame push beyond the
1,024-frame cap with an error.  `push_frame` (src/vm/mod.rs lines
110-113) has no check at all: pushing onto a VM already holding
`MAX_FRAMES` frames succeeds (the function is total — there is no error
path) and grows the frame stack to 1,025.  `MAX_FRAMES` is only ever
used as the initial `Vec` capacity, despite its "maximum number of
stack frames that can exist" doc comment: a code bug. -/
theorem push_frame_exceeds_max_frames :
    (vmAtFrameCap.push_frame (Frame.new ⟨[], 0⟩ [])).frames.length = MAX_FRAMES + 1
      ∧ (vmAtFrameCap.push_frame (Frame.new ⟨[], 0⟩ [])).frames_index = MAX_FRAMES + 1 := by
  constructor
  · simp [VM.push_frame, vmAtFrameCap, List.length_replicate]
  · simp [VM.push_frame, vmAtFrameCap]

/-- A byte that matches none of the dispatch arms selects the `_ => {}`
arm: the step does nothing and reports no error. -/
theorem execOp_unknown (runF : VM → Res VM) (vm : VM) (op : Nat)
    (h : op ∉ knownOpcodes) : execOp runF vm op = .ok vm := by
  simp only [knownOpcodes, List.mem_cons, List.not_mem_nil, or_false, not_or] at h
  obtain ⟨h1, h2, h3, h4, h5, h6, h7, h8, h9, h10, h11, h12, h13, h14, h15,
    h16, h17, h18, h19, h20, h21, h22, h23, h24, h25, h26, h27, h28, h29⟩ := h
  simp [execOp, h1, h2, h3, h4, h5, h6, h7, h8, h9, h10, h11, h12, h13, h14,
    h15, h16, h17, h18, h19, h20, h21, h22, h23, h24, h25, h26, h27, h28, h29]

/-- Claim C10: when the dispatch loop fetches an instruction byte that
is not one of the dispatched opcodes, `run()` reports no error — the
byte is skipped, the instruction pointer advances by one, and the
operand stack, the globals and the frame stack are unchanged. -/
theorem unknown_opcode_is_skipped (n : Nat) (vm : VM)
    (hip : vm.current_frame.ip < vm.current_frame.instructions.length)
    (hop : vm.current_frame.instructions.getD vm.current_frame.ip 0 ∉ knownOpcodes) :
    runVM (n + 1) vm = runVM n vm.bumpIp
      ∧ vm.bumpIp.stack = vm.stack
      ∧ vm.bumpIp.globals = vm.globals
      ∧ vm.bumpIp.frames.length = vm.frames.length
      ∧ vm.bumpIp.current_frame.ip = vm.current_frame.ip + 1 := by
  refine ⟨?_, rfl, rfl, ?_, ?_⟩
  · rw [runVM, if_pos hip, execOp_unknown _ _ _ hop]
  · obtain ⟨cs, st, gl, r, frs, fi⟩ := vm
    cases frs <;> rfl
  · obtain ⟨cs, st, gl, r, frs, fi⟩ := vm
    cases frs with
    | nil => simp [VM.current_frame, Frame.instructions, Frame.new, Closure.new] at hip
    | cons fr rest => simp [VM.bumpIp, VM.modifyFrame, VM.current_frame]

def unknownOpcodeVM : VM := VM.new ⟨[99], []⟩

theorem unknown_opcode_is_skipped_witness :
    runVM 2 unknownOpcodeVM = runVM 1 unknownOpcodeVM.bumpIp :=
  (unknown_opcode_is_skipped 1 unknownOpcodeVM (by decide) (by decide)).1

/-- Claim C9: EQUAL / NOT_EQUAL on two popped strings is always the
"operand types doesn't match" runtime error, and the comparison is
evaluated by value only when both operands are integers or both are
booleans — every other pairing, same-typed or not, errors. -/
theorem equality_on_strings_errors (vm : VM) (op : Nat) (l r : Value) (rest : List Value)
    (hstack : vm.stack = r :: l :: rest)
    (hop : op = OP_EQUAL ∨ op = OP_NOT_EQUAL) :
    (l.is_string = true → r.is_string = true →
      vm.run_boolean_operations op
        = .err "left STRING and right STRING operand types doesn't match")
    ∧ (¬(l.is_integer = true ∧ r.is_integer = true) →
       ¬(l.is_boolean = true ∧ r.is_boolean = true) →
       ∃ msg, vm.run_boolean_operations op = .err msg) := by
  obtain ⟨cs, st, gl, res, frs, fi⟩ := vm
  simp only at hstack
  subst hstack
  constructor
  · intro hl hr
    cases l <;> simp [Value.is_string, Value.object_type] at hl <;>
      cases r <;> simp [Value.is_string, Value.object_type] at hr <;> rfl
  · intro h1 h2
    cases l <;> cases r <;>
      first
        | exact ⟨_, rfl⟩
        | exact (h1 ⟨rfl, rfl⟩).elim
        | exact (h2 ⟨rfl, rfl⟩).elim

def stringCompareVM : VM :=
  { constants := [], stack := [.stringObj "b", .stringObj "a"], globals := [],
    result := none, frames := [Frame.new ⟨[], 0⟩ []], frames_index := 1 }

theorem equality_on_strings_errors_witness :
    stringCompareVM.run_boolean_operations OP_EQUAL
      = .err "left STRING and right STRING operand types doesn't match" :=
  (equality_on_strings_errors stringCompareVM OP_EQUAL (.stringObj "a") (.stringObj "b")
    [] rfl (Or.inl rfl)).1 rfl rfl

/-- Claim C5: on a table with an outer chain, resolving a name that is
absent locally and resolves in the outer chain to a LOCAL or FREE
symbol `s` appends `s` to the current table's `free_symbols` and
inserts and returns the new Symbol ⟨s.name, FREE, position⟩ whose index
is its position in `free_symbols`; a GLOBAL or BUILTIN resolution
passes through unchanged with no FREE binding created. -/
theorem resolve_free_conversion
    (store : List (String × Symbol)) (nd : Nat) (fs : List Symbol)
    (o : SymbolTable) (name : String) (s : Symbol) (o₂ : SymbolTable)
    (hlocal : storeGet store name = none)
    (houter : o.resolve name = (some s, o₂)) :
    (s.scope = Scope.LOCAL ∨ s.scope = Scope.FREE →
      (SymbolTable.mk store nd fs (some o)).resolve name
        = (some ⟨s.name, Scope.FREE, fs.length⟩,
           .mk ((s.name, ⟨s.name, Scope.FREE, fs.length⟩) :: store) nd
               (fs ++ [s]) (some o₂)))
    ∧ (s.scope = Scope.GLOBAL ∨ s.scope = Scope.BUILTIN →
      (SymbolTable.mk store nd fs (some o)).resolve name
        = (some s, .mk store nd fs (some o₂))) := by
  constructor
  · intro hscope
    have hns : ¬(s.scope = Scope.GLOBAL ∨ s.scope = Scope.BUILTIN) := by
      rcases hscope with h | h <;> rw [h] <;> decide
    rw [SymbolTable.resolve, hlocal]
    simp only [houter]
    rw [if_neg hns, SymbolTable.define_free]
    simp
  · intro hscope
    rw [SymbolTable.resolve, hlocal]
    simp only [houter]
    rw [if_pos hscope]

/-- A global table in which `a` is defined. -/
def globalTableA : SymbolTable := ((SymbolTable.new).define "a").2

/-- A first local table under [globalTableA] in which `c` is
defined. -/
def localTableC : SymbolTable := ((SymbolTable.new_enclosed globalTableA).define "c").2

theorem resolve_free_conversion_witness :
    (SymbolTable.mk (SymbolTable.new).store 0 [] (some localTableC)).resolve "c"
      = (some ⟨"c", Scope.FREE, 0⟩,
         .mk (("c", ⟨"c", Scope.FREE, 0⟩) :: (SymbolTable.new).store) 0
             [⟨"c", Scope.LOCAL, 0⟩] (some localTableC)) :=
  (resolve_free_conversion (SymbolTable.new).store 0 [] localTableC "c"
    ⟨"c", Scope.LOCAL, 0⟩ localTableC rfl rfl).1 (Or.inl rfl)

/-- `make` specialised to a known opcode: the body after the
let-else on `lookup`. -/
theorem make_eq_of_lookup (op : Nat) (d : Definition) (ops : List Nat)
    (h : lookup op = some d) :
    make op ops = makeGo d.operand_widths ops 0 1
      ((List.replicate (1 + d.operand_widths.foldl (· + ·) 0) 0).set 0 op) := by
  unfold make
  rw [h]

/-- Every operand-widths list in the opcode table is `[]`, `[1]` or
`[2]`. -/
theorem lookup_operand_widths (op : Nat) (d : Definition) (h : lookup op = some d) :
    d.operand_widths = [] ∨ d.operand_widths = [1] ∨ d.operand_widths = [2] := by
  have hw : ((lookup op).map Definition.operand_widths).getD []
      ∈ [([] : List Nat), [1], [2]] := by
    by_cases hb : op < 28
    · have key : ∀ x, x < 28 → ((lookup x).map Definition.operand_widths).getD []
          ∈ [([] : List Nat), [1], [2]] := by decide
      exact key op hb
    · push_neg at hb
      have hne : ∀ k, k < 28 → op ≠ k := fun k hk => by omega
      rw [show lookup op = none by
        simp [lookup, hne OP_CONSTANT (by decide), hne OP_ADD (by decide),
          hne OP_POP (by decide), hne OP_SUB (by decide), hne OP_MUL (by decide),
          hne OP_DIV (by decide), hne OP_TRUE (by decide), hne OP_FALSE (by decide),
          hne OP_EQUAL (by decide), hne OP_NOT_EQUAL (by decide),
          hne OP_GREATER_THAN (by decide), hne OP_MINUS (by decide),
          hne OP_BANG (by decide), hne OP_JUMP_NOT_TRUTHY (by decide),
          hne OP_JUMP (by decide), hne OP_NULL (by decide),
          hne OP_GET_GLOBAL (by decide), hne OP_SET_GLOBAL (by decide),
          hne OP_ARRAY (by decide), hne OP_HASH (by decide), hne OP_INDEX (by decide),
          hne OP_CALL (by decide), hne OP_RETURN_VALUE (by decide),
          hne OP_RETURN (by decide), hne OP_GET_LOCAL (by decide),
          hne OP_SET_LOCAL (by decide), hne OP_ASSIGN_GLOBAL (by decide)]]
      decide
  rw [h] at hw
  simpa using hw

/-- Claim C8: for every opcode with a definition and every operand list
matching the declared widths in number and magnitude,
`read_operands(lookup(op), make(op, ops)[1:])` recovers exactly the
operands together with the total declared width. -/
theorem make_read_operands_roundtrip (op : Nat) (d : Definition) (ops : List Nat)
    (hlook : lookup op = some d)
    (hops : List.Forall₂ (fun o w => o < 2 ^ (8 * w)) ops d.operand_widths) :
    ∃ ins, make op ops = some ins
      ∧ read_operands d (ins.drop 1) = some (ops, d.operand_widths.foldl (· + ·) 0) := by
  rcases lookup_operand_widths op d hlook with hw | hw | hw
  · -- no operands
    rw [hw] at hops
    cases hops
    refine ⟨[op], ?_, ?_⟩
    · rw [make_eq_of_lookup op d [] hlook, hw]
      simp [makeGo, List.replicate]
    · unfold read_operands
      rw [hw]
      simp [readOperandsGo]
  · -- one 1-byte operand
    rw [hw] at hops
    rcases hops with _ | ⟨hbound, htail⟩
    cases htail
    rename_i o
    have ho : o < 256 := by norm_num at hbound; exact hbound
    refine ⟨[op, o], ?_, ?_⟩
    · rw [make_eq_of_lookup op d [o] hlook, hw]
      simp [makeGo, writeOperand, ho, List.replicate]
    · unfold read_operands
      rw [hw]
      simp [readOperandsGo, readU8]
  · -- one 2-byte operand
    rw [hw] at hops
    rcases hops with _ | ⟨hbound, htail⟩
    cases htail
    rename_i o
    have ho : o < 65536 := by norm_num at hbound; exact hbound
    refine ⟨[op, o / 256, o % 256], ?_, ?_⟩
    · rw [make_eq_of_lookup op d [o] hlook, hw]
      simp [makeGo, writeOperand, ho, List.replicate]
    · unfold read_operands
      rw [hw]
      simp [readOperandsGo, readU16, Nat.div_add_mod]

theorem make_read_operands_roundtrip_witness :
    ∃ ins, make OP_CONSTANT [65534] = some ins
      ∧ read_operands ⟨"OpConstant", [2]⟩ (ins.drop 1)
          = some ([65534], ([2] : List Nat).foldl (· + ·) 0) :=
  make_read_operands_roundtrip OP_CONSTANT ⟨"OpConstant", [2]⟩ [65534] rfl
    (List.Forall₂.cons (by norm_num) List.Forall₂.nil)

end Monkey
